import Mathlib

/-!
# httpdig: request construction and response mapping

A shallow embedding of `httpdig.go` (package `httpdig`): the package globals
`apiURL` and `ednsSubnet`, the `Response` model, the unexported `dig`, and the
exported `Query` and `SetEDNSSubnet`.

Conventions of the embedding.

* A Go `string` is a Lean `String`; Go's `len(s)` counts bytes, which is
  `String.utf8ByteSize`.
* A Go `[]byte` is a `List UInt8`.
* Go's `int` and `time.Duration` (an `int64`) are `Int`; arithmetic on a
  `time.Duration` is reduced to the two's complement range by `wrapInt64`.
* A Go run-time panic is the `Except.error` branch of `Except Panic`; a Go
  `error` value is an `Option GoError` returned next to the result (`none` is
  `nil`).
* The standard library pieces `httpdig.go` calls but does not define
  (`http.Client.Do` with `ioutil.ReadAll`, and `json.Unmarshal`) are the two
  fields of `Env`; every theorem is quantified over them.
* `Query` and `dig` also return the list of `Event`s they performed, in program
  order, so that "this step was not attempted" is a statement about a value.
-/

namespace Httpdig

/-! ## Strings -/

/-- Go's builtin `len` on a string: the number of bytes. -/
def len (s : String) : Nat := s.utf8ByteSize

/-- A run-time panic, carrying its message. -/
structure Panic where
  msg : String
  deriving DecidableEq

/-- A Go `error` value, carrying its message. -/
structure GoError where
  msg : String
  deriving DecidableEq

/-- The function `strings.Repeat(s, count)`: `count` copies of `s`, and a panic when
`count` is negative. (Its second panic, on overflow of `len(s) * count`, needs
a result longer than the address space and is not modelled.) -/
def stringsRepeat (s : String) (count : Int) : Except Panic String :=
  if count < 0 then
    Except.error ⟨"strings: negative Repeat count"⟩
  else
    Except.ok ⟨(List.replicate count.toNat s.data).flatten⟩

/-! ## `url.Values` -/

/-- The type `url.Values`, a `map[string][]string`, as an association list with one
entry per key. -/
abbrev Values := List (String × List String)

/-- The map read `v[key]`: the values stored under `key`, `none` when the key is
absent. -/
def Values.lookup (v : Values) (key : String) : Option (List String) :=
  match v with
  | [] => none
  | (k, vs) :: rest => if k = key then some vs else Values.lookup rest key

/-- The method `Values.Add(key, value)`: `v[key] = append(v[key], value)`. -/
def Values.Add (v : Values) (key value : String) : Values :=
  match v with
  | [] => [(key, [value])]
  | (k, vs) :: rest =>
    if k = key then (k, vs ++ [value]) :: rest
    else (k, vs) :: Values.Add rest key value

/-- The keys of the map. -/
def Values.keys (v : Values) : List String := v.map Prod.fst

/-! ## Package globals -/

/-- The package-level variables of `httpdig.go`. -/
structure Globals where
  apiURL : String
  ednsSubnet : String
  deriving DecidableEq

/-- The initial values: `var apiURL = "https://dns.google.com/resolve"` and
`var ednsSubnet = "0.0.0.0/0"`. -/
def Globals.init : Globals :=
  { apiURL := "https://dns.google.com/resolve", ednsSubnet := "0.0.0.0/0" }

/-- The function `SetEDNSSubnet(subnet)`: the single assignment `ednsSubnet = subnet`. -/
def SetEDNSSubnet (g : Globals) (subnet : String) : Globals :=
  { g with ednsSubnet := subnet }

/-- A host of 254 bytes: 254 times the letter `a`. -/
def host254 : String := ⟨List.replicate 254 'a'⟩

/-! ## Building the request (`dig`, lines 51 to 61) -/

/-- The query of the request `dig` builds. `req.URL.Query()` starts from the
query part of `apiURL`, which has none, so from the empty map; then come the
four `query.Add` calls, the third under `len(ednsSubnet) > 0`, the fourth with
the result of `strings.Repeat("0", 253-len(host))`, whose panic ends `dig`. -/
def digQuery (g : Globals) (host recordType : String) : Except Panic Values :=
  let query : Values := []
  let query := query.Add "name" host
  let query := query.Add "type" recordType
  let query :=
    if len g.ednsSubnet > 0 then query.Add "edns_client_subnet" g.ednsSubnet
    else query
  match stringsRepeat "0" ((253 : Int) - (len host : Int)) with
  | Except.error p => Except.error p
  | Except.ok padding => Except.ok (query.Add "random_padding" padding)

/-! ## The response model -/

/-- An element of `Response.Question`. The Go field `Type` is `Type_` here, `Type`
being reserved. -/
structure Question where
  Name : String
  Type_ : Int
  deriving DecidableEq

/-- An element of `Response.Answer` and of `Response.Authority` (the two
anonymous struct types have the same fields). `TTL` is a `time.Duration`:
an `int64` count of nanoseconds. -/
structure Record where
  Name : String
  Type_ : Int
  TTL : Int
  Data : String
  deriving DecidableEq

/-- The struct `Response`. `Any` stands for the values of `interface{}` that
`Additional` holds. -/
structure Response (Any : Type) where
  Status : Int
  TC : Bool
  RD : Bool
  RA : Bool
  AD : Bool
  CD : Bool
  Question : List Question
  Answer : List Record
  Authority : List Record
  Additional : List Any
  EdnsClientSubnet : String
  Comment : String
  deriving DecidableEq

/-- The zero value `Response{}`. -/
def Response.zero {Any : Type} : Response Any :=
  { Status := 0, TC := false, RD := false, RA := false, AD := false, CD := false,
    Question := [], Answer := [], Authority := [], Additional := [],
    EdnsClientSubnet := "", Comment := "" }

/-! ## `time.Duration` arithmetic -/

/-- The constant `time.Second`, in nanoseconds. -/
def Second : Int := 1000000000

/-- Reduction of an integer to the `int64` range, as two's complement
arithmetic does. -/
def wrapInt64 (x : Int) : Int := (x + 2 ^ 63) % 2 ^ 64 - 2 ^ 63

/-- The values of an `int64`. -/
def inInt64 (x : Int) : Prop := -(2 ^ 63) ≤ x ∧ x < 2 ^ 63

instance (x : Int) : Decidable (inInt64 x) := by
  unfold inInt64; exact inferInstance

/-- Go's `*` on two `time.Duration` values. -/
def mulDuration (a b : Int) : Int := wrapInt64 (a * b)

/-- The loop body `rs[i].TTL *= time.Second` on one element. -/
def scaleRecord (r : Record) : Record :=
  { r with TTL := mulDuration r.TTL Second }

/-- The in-place update `xs[i] = f(xs[i])`; the index is in range wherever the
loops below use it. -/
def updateAt {α : Type} (xs : List α) (i : Nat) (f : α → α) : List α :=
  match xs, i with
  | [], _ => []
  | x :: rest, 0 => f x :: rest
  | x :: rest, i + 1 => x :: updateAt rest i f

/-- The loop `for i := range rs { rs[i].TTL *= time.Second }`: the indices
`0 .. len(rs)-1` in order, one in-place update each. -/
def scaleTTLs (rs : List Record) : List Record :=
  (List.range rs.length).foldl (fun acc i => updateAt acc i scaleRecord) rs

/-! ## The environment and the events of a call -/

/-- The request handed to `client.Do`: `http.NewRequest("GET", apiURL, nil)`
with `req.URL.RawQuery = query.Encode()`; the query is kept as the map that
`Encode` serialises. -/
structure Request where
  method : String
  url : String
  query : Values
  deriving DecidableEq

/-- What `httpdig.go` calls in the standard library. -/
structure Env (Any : Type) where
  /-- The call `client.Do(req)` and the `ioutil.ReadAll(resp.Body)` after it: `none` when
  `Do` returns a non-nil error, otherwise the bytes `ReadAll` returns (its own
  error is dropped by `dig`). -/
  clientDo : Request → Option (List UInt8)
  /-- The call `json.Unmarshal(data, &response)`: the value of `response` after the
  call, from its value before, and the error returned. -/
  jsonUnmarshal : List UInt8 → Response Any → Response Any × Option GoError

/-- The steps of a call that the embedding records, in program order. -/
inductive Event where
  | httpDo (req : Request)
  | readAll
  | jsonUnmarshal (data : List UInt8)
  | scaleAnswer (i : Nat)
  | scaleAuthority (i : Nat)
  deriving DecidableEq

/-- The outcome of running a function of the package: the package variables
after the call, the events performed, and the returned value or the panic. -/
structure Run (α : Type) where
  globals : Globals
  events : List Event
  result : Except Panic α

/-! ## `dig` and `Query` -/

/-- The function `dig(host, recordType)`. -/
def dig {Any : Type} (g : Globals) (env : Env Any) (host recordType : String) :
    Run (List UInt8 × Option GoError) :=
  match digQuery g host recordType with
  | Except.error p => { globals := g, events := [], result := Except.error p }
  | Except.ok query =>
    let req : Request := { method := "GET", url := g.apiURL, query := query }
    match env.clientDo req with
    | none =>
      { globals := g, events := [Event.httpDo req],
        result := Except.ok ([], some ⟨"Unable to resolve host"⟩) }
    | some body =>
      { globals := g, events := [Event.httpDo req, Event.readAll],
        result := Except.ok (body, none) }

/-- The function `Query(host, t)`. -/
def Query {Any : Type} (g : Globals) (env : Env Any) (host t : String) :
    Run (Response Any × Option GoError) :=
  let d := dig g env host t
  match d.result with
  | Except.error p => { globals := d.globals, events := d.events, result := Except.error p }
  | Except.ok (_, some err) =>
    { globals := d.globals, events := d.events, result := Except.ok (Response.zero, some err) }
  | Except.ok (resp, none) =>
    let response : Response Any := Response.zero
    let decoded := env.jsonUnmarshal resp response
    let response := decoded.1
    let err := decoded.2
    let nAnswer := response.Answer.length
    let response := { response with Answer := scaleTTLs response.Answer }
    let nAuthority := response.Authority.length
    let response := { response with Authority := scaleTTLs response.Authority }
    let events := d.events ++ [Event.jsonUnmarshal resp]
      ++ (List.range nAnswer).map Event.scaleAnswer
      ++ (List.range nAuthority).map Event.scaleAuthority
    match err with
    | some e => { globals := d.globals, events := events, result := Except.ok (Response.zero, some e) }
    | none => { globals := d.globals, events := events, result := Except.ok (response, none) }

/-! ## Sequences of calls -/

/-- A call of one of the two exported functions; a `Query` comes with the
environment it runs in. -/
inductive Call (Any : Type) where
  | setEDNSSubnet (subnet : String)
  | query (env : Env Any) (host t : String)

/-- One call: the package variables after it. -/
def step {Any : Type} (g : Globals) (c : Call Any) : Globals :=
  match c with
  | Call.setEDNSSubnet subnet => SetEDNSSubnet g subnet
  | Call.query env host t => (Query g env host t).globals

/-- The package variables after a sequence of calls, from `g`. -/
def runCalls {Any : Type} (g : Globals) (calls : List (Call Any)) : Globals :=
  calls.foldl step g

/-- The argument of the last `SetEDNSSubnet` call of a sequence, and `dflt` when
it has none: the value the spec says a later `Query` reads. -/
def lastSubnet {Any : Type} (dflt : String) (calls : List (Call Any)) : String :=
  match calls with
  | [] => dflt
  | Call.setEDNSSubnet subnet :: rest => lastSubnet subnet rest
  | Call.query _ _ _ :: rest => lastSubnet dflt rest

/-- The map `dig` encodes into the request, for a given padding. -/
def fullQuery (g : Globals) (host recordType padding : String) : Values :=
  if g.ednsSubnet = "" then
    [("name", [host]), ("type", [recordType]), ("random_padding", [padding])]
  else
    [("name", [host]), ("type", [recordType]), ("edns_client_subnet", [g.ednsSubnet]),
      ("random_padding", [padding])]

/-! ## Concrete environments -/

/-- An environment whose transport answers every request with `body` and whose
decoder yields `decoded` and `err` on that body (and a syntax error, leaving
the response as it was, on any other). -/
def stubEnv (body : List UInt8) (decoded : Response Unit) (err : Option GoError) : Env Unit :=
  { clientDo := fun _ => some body,
    jsonUnmarshal := fun data r =>
      if data = body then (decoded, err) else (r, some ⟨"unexpected end of JSON input"⟩) }

/-- An environment whose transport fails on every request. -/
def refusedEnv : Env Unit :=
  { clientDo := fun _ => none,
    jsonUnmarshal := fun _ r => (r, none) }

/-- The body of the spec's example response. -/
def exampleBody : List UInt8 :=
  (String.toUTF8 "\x7b\"Status\":0,\"Answer\":[\x7b\"name\":\"example.com.\",\"type\":1,\"TTL\":300,\"data\":\"93.184.216.34\"\x7d]\x7d").toList

/-- The spec's example response as decoded: status 0 and the one answer record
`(example.com., 1, 300, 93.184.216.34)`, the TTL being the number on the wire. -/
def exampleDecoded : Response Unit :=
  { (Response.zero : Response Unit) with
    Answer := [{ Name := "example.com.", Type_ := 1, TTL := 300, Data := "93.184.216.34" }] }

/-- The environment of the spec's example. -/
def exampleEnv : Env Unit := stubEnv exampleBody exampleDecoded none

/-- A response whose one answer record has the TTL 9223372037, a value of an
`int64` whose product with `time.Second` is not one. -/
def overflowDecoded : Response Unit :=
  { (Response.zero : Response Unit) with
    Answer := [{ Name := "example.com.", Type_ := 1, TTL := 9223372037, Data := "93.184.216.34" }] }

/-- The body of a response whose answer record has the TTL 9223372037. -/
def overflowBody : List UInt8 :=
  (String.toUTF8 "\x7b\"Status\":0,\"Answer\":[\x7b\"name\":\"example.com.\",\"type\":1,\"TTL\":9223372037,\"data\":\"93.184.216.34\"\x7d]\x7d").toList

/-- An environment whose resolver sends the TTL 9223372037. -/
def overflowEnv : Env Unit := stubEnv overflowBody overflowDecoded none

/-- A response as a decoder may leave it when it fails after some fields:
status 3 and one answer record with the TTL 7. -/
def partialDecoded : Response Unit :=
  { (Response.zero : Response Unit) with
    Status := 3,
    Answer := [{ Name := "example.com.", Type_ := 1, TTL := 7, Data := "" }] }

/-- The truncated body: the one byte `0x7b`, an opening brace. -/
def truncatedBody : List UInt8 :=
  [0x7b]

/-- An environment whose resolver sends the truncated body of the one byte
`0x7b`, an opening brace, on which the decoder reports a syntax error. -/
def truncatedEnv : Env Unit :=
  stubEnv truncatedBody Response.zero (some ⟨"unexpected end of JSON input"⟩)

/-- A body whose `TC` member is a string: the decoder fills `Status` and
`Answer`, and reports the type error. -/
def mistypedBody : List UInt8 :=
  (String.toUTF8 "\x7b\"Status\":3,\"Answer\":[\x7b\"name\":\"example.com.\",\"type\":1,\"TTL\":7\x7d],\"TC\":\"x\"\x7d").toList

/-- An environment whose resolver sends the body with the mistyped `TC`. -/
def mistypedEnv : Env Unit :=
  stubEnv mistypedBody partialDecoded
    (some ⟨"json: cannot unmarshal string into Go struct field Response.TC of type bool"⟩)

/-- A decoded NXDOMAIN response: status 3, the question, and one authority
record with the TTL 1800. -/
def nxdomainDecoded : Response Unit :=
  { Status := 3, TC := false, RD := true, RA := true, AD := false, CD := false,
    Question := [{ Name := "nosuch.example.", Type_ := 1 }],
    Answer := [],
    Authority := [{ Name := "example.", Type_ := 6, TTL := 1800,
                    Data := "ns.example. hostmaster.example. 1 7200 900 1209600 86400" }],
    Additional := [()],
    EdnsClientSubnet := "0.0.0.0/0",
    Comment := "Response from 192.0.2.1." }

/-- The body of an NXDOMAIN response. -/
def nxdomainBody : List UInt8 :=
  (String.toUTF8 "\x7b\"Status\":3,\"RD\":true,\"RA\":true,\"Question\":[\x7b\"name\":\"nosuch.example.\",\"type\":1\x7d],\"Authority\":[\x7b\"name\":\"example.\",\"type\":6,\"TTL\":1800,\"data\":\"ns.example. hostmaster.example. 1 7200 900 1209600 86400\"\x7d],\"Additional\":[null],\"edns_client_subnet\":\"0.0.0.0/0\",\"Comment\":\"Response from 192.0.2.1.\"\x7d").toList

/-- An environment whose resolver answers NXDOMAIN. -/
def nxdomainEnv : Env Unit := stubEnv nxdomainBody nxdomainDecoded none

/-- The query of the request that `Query("example.com", "A")` sends under the
initial package variables: 253 - 11 = 242 bytes of padding. -/
def exampleQuery : Values :=
  [("name", ["example.com"]), ("type", ["A"]), ("edns_client_subnet", ["0.0.0.0/0"]),
    ("random_padding", [⟨List.replicate 242 '0'⟩])]

/-- The request that `Query("example.com", "A")` sends under the initial
package variables. -/
def exampleRequest : Request :=
  { method := "GET", url := "https://dns.google.com/resolve", query := exampleQuery }

/-- A decoded response with two answer records and one authority record. -/
def twoAnswersDecoded : Response Unit :=
  { (Response.zero : Response Unit) with
    Answer := [{ Name := "example.com.", Type_ := 1, TTL := 300, Data := "93.184.216.34" },
               { Name := "example.com.", Type_ := 1, TTL := 60, Data := "93.184.216.35" }],
    Authority := [{ Name := "example.com.", Type_ := 2, TTL := 86400, Data := "a.iana-servers.net." }] }

/-- The body of a response with two answer records and one authority record. -/
def twoAnswersBody : List UInt8 :=
  (String.toUTF8 "\x7b\"Status\":0,\"Answer\":[\x7b\"name\":\"example.com.\",\"type\":1,\"TTL\":300,\"data\":\"93.184.216.34\"\x7d,\x7b\"name\":\"example.com.\",\"type\":1,\"TTL\":60,\"data\":\"93.184.216.35\"\x7d],\"Authority\":[\x7b\"name\":\"example.com.\",\"type\":2,\"TTL\":86400,\"data\":\"a.iana-servers.net.\"\x7d]\x7d").toList

/-- An environment whose resolver sends two answer records and one authority
record. -/
def twoAnswersEnv : Env Unit := stubEnv twoAnswersBody twoAnswersDecoded none

/-! ## Lemmas on strings and on `strings.Repeat` -/

theorem utf8Len_replicate_ascii (c : Char) (hc : c.utf8Size = 1) (n : Nat) :
    String.utf8Len (List.replicate n c) = n := by
  induction n with
  | zero => rfl
  | succ k ih => simp [List.replicate_succ, String.utf8Len_cons, ih, hc]

theorem len_eq_zero_iff (s : String) : len s = 0 ↔ s = "" := by
  cases s with
  | mk cs =>
    cases cs with
    | nil => simp [len]; rfl
    | cons c rest =>
      have hpos := Char.utf8Size_pos c
      simp [len, String.utf8Len_cons, String.ext_iff]
      omega

theorem flatten_replicate_singleton {α : Type} (a : α) (n : Nat) :
    (List.replicate n [a]).flatten = List.replicate n a := by
  induction n with
  | zero => rfl
  | succ k ih => simp [List.replicate_succ, ih]

/-- The padding `strings.Repeat("0", 253-len(host))` of a host of at most 253
bytes. -/
theorem stringsRepeat_zero_of_le (host : String) (h : len host ≤ 253) :
    stringsRepeat "0" ((253 : Int) - (len host : Int))
      = Except.ok ⟨List.replicate (253 - len host) '0'⟩ := by
  have hneg : ¬ ((253 : Int) - (len host : Int) < 0) := by omega
  have hnat : ((253 : Int) - (len host : Int)).toNat = 253 - len host := by omega
  have hdata : ("0" : String).data = ['0'] := rfl
  simp only [stringsRepeat, hneg, if_false, hnat, hdata, flatten_replicate_singleton]

/-- The call `strings.Repeat("0", 253-len(host))` panics on a host of more than
253 bytes. -/
theorem stringsRepeat_zero_of_gt (host : String) (h : 253 < len host) :
    stringsRepeat "0" ((253 : Int) - (len host : Int))
      = Except.error ⟨"strings: negative Repeat count"⟩ := by
  have hneg : (253 : Int) - (len host : Int) < 0 := by omega
  simp only [stringsRepeat, hneg, if_true]

theorem len_replicate_zero (n : Nat) : len ⟨List.replicate n '0'⟩ = n := by
  simp only [len, String.utf8ByteSize_mk]
  exact utf8Len_replicate_ascii '0' (by decide) n

theorem len_replicate_a (n : Nat) : len ⟨List.replicate n 'a'⟩ = n := by
  simp only [len, String.utf8ByteSize_mk]
  exact utf8Len_replicate_ascii 'a' (by decide) n

/-! ## Lemmas on the request `dig` builds -/

theorem digQuery_of_le (g : Globals) (host recordType : String) (h : len host ≤ 253) :
    digQuery g host recordType
      = Except.ok (fullQuery g host recordType ⟨List.replicate (253 - len host) '0'⟩) := by
  have hne1 : ¬ ("name" = "type") := by decide
  have hne2 : ¬ ("name" = "edns_client_subnet") := by decide
  have hne3 : ¬ ("type" = "edns_client_subnet") := by decide
  have hne4 : ¬ ("name" = "random_padding") := by decide
  have hne5 : ¬ ("type" = "random_padding") := by decide
  have hne6 : ¬ ("edns_client_subnet" = "random_padding") := by decide
  unfold digQuery
  rw [stringsRepeat_zero_of_le host h]
  by_cases hs : g.ednsSubnet = ""
  · have hz : ¬ (len g.ednsSubnet > 0) := by
      have := (len_eq_zero_iff g.ednsSubnet).mpr hs
      omega
    simp [Values.Add, fullQuery, hs, hz, hne1, hne4, hne5]
  · have hz : len g.ednsSubnet > 0 := by
      have := (len_eq_zero_iff g.ednsSubnet).not.mpr hs
      omega
    simp [Values.Add, fullQuery, hs, hz, hne1, hne2, hne3, hne4, hne5, hne6]

theorem digQuery_of_gt (g : Globals) (host recordType : String) (h : 253 < len host) :
    digQuery g host recordType = Except.error ⟨"strings: negative Repeat count"⟩ := by
  unfold digQuery
  rw [stringsRepeat_zero_of_gt host h]

/-! ## Lemmas on the TTL loops -/

theorem updateAt_append_cons {α : Type} (f : α → α) (pre : List α) (x : α) (post : List α) :
    updateAt (pre ++ x :: post) pre.length f = pre ++ f x :: post := by
  induction pre with
  | nil => rfl
  | cons p ps ih => simp [updateAt, ih]

theorem foldl_updateAt_range {α : Type} (f : α → α) (xs : List α) (k : Nat) (hk : k ≤ xs.length) :
    (List.range k).foldl (fun acc i => updateAt acc i f) xs
      = (xs.take k).map f ++ xs.drop k := by
  induction k with
  | zero => simp
  | succ n ih =>
    have hn : n < xs.length := hk
    rw [List.range_succ, List.foldl_append, ih (Nat.le_of_lt hn)]
    simp only [List.foldl_cons, List.foldl_nil]
    have hdrop : xs.drop n = xs[n] :: xs.drop (n + 1) := List.drop_eq_getElem_cons hn
    have hlen : ((xs.take n).map f).length = n := by
      simp [List.length_take, Nat.min_eq_left (Nat.le_of_lt hn)]
    rw [hdrop]
    have hstep := updateAt_append_cons f ((xs.take n).map f) xs[n] (xs.drop (n + 1))
    rw [hlen] at hstep
    rw [hstep, List.take_succ, List.getElem?_eq_getElem hn]
    simp only [Option.toList_some, List.map_append, List.map_cons, List.map_nil,
      List.append_assoc, List.singleton_append]

/-- The loop rescales every element once and keeps the order. -/
theorem scaleTTLs_eq_map (rs : List Record) : scaleTTLs rs = rs.map scaleRecord := by
  unfold scaleTTLs
  rw [foldl_updateAt_range scaleRecord rs rs.length (Nat.le_refl _)]
  simp

theorem wrapInt64_of_inInt64 (x : Int) (h : inInt64 x) : wrapInt64 x = x := by
  unfold inInt64 at h
  unfold wrapInt64
  have h1 : 0 ≤ x + 2 ^ 63 := by omega
  have h2 : x + 2 ^ 63 < 2 ^ 64 := by omega
  rw [Int.emod_eq_of_lt h1 h2]
  omega

theorem inInt64_wrapInt64 (x : Int) : inInt64 (wrapInt64 x) := by
  unfold inInt64 wrapInt64
  have h1 : 0 ≤ (x + 2 ^ 63) % 2 ^ 64 := Int.emod_nonneg _ (by norm_num)
  have h2 : (x + 2 ^ 63) % 2 ^ 64 < 2 ^ 64 := Int.emod_lt_of_pos _ (by norm_num)
  constructor <;> omega

theorem fullQuery_lookup_padding (g : Globals) (host recordType padding : String) :
    (fullQuery g host recordType padding).lookup "random_padding" = some [padding] := by
  have hne4 : ¬ ("name" = "random_padding") := by decide
  have hne5 : ¬ ("type" = "random_padding") := by decide
  have hne6 : ¬ ("edns_client_subnet" = "random_padding") := by decide
  by_cases hs : g.ednsSubnet = "" <;>
    simp [fullQuery, Values.lookup, hs, hne4, hne5, hne6]

theorem fullQuery_lookup_name (g : Globals) (host recordType padding : String) :
    (fullQuery g host recordType padding).lookup "name" = some [host] := by
  by_cases hs : g.ednsSubnet = "" <;> simp [fullQuery, Values.lookup, hs]

theorem fullQuery_lookup_type (g : Globals) (host recordType padding : String) :
    (fullQuery g host recordType padding).lookup "type" = some [recordType] := by
  have hne1 : ¬ ("name" = "type") := by decide
  by_cases hs : g.ednsSubnet = "" <;> simp [fullQuery, Values.lookup, hs, hne1]

theorem fullQuery_lookup_subnet (g : Globals) (host recordType padding : String) :
    (fullQuery g host recordType padding).lookup "edns_client_subnet"
      = if g.ednsSubnet = "" then none else some [g.ednsSubnet] := by
  have hne2 : ¬ ("name" = "edns_client_subnet") := by decide
  have hne3 : ¬ ("type" = "edns_client_subnet") := by decide
  have hne6 : ¬ ("random_padding" = "edns_client_subnet") := by decide
  by_cases hs : g.ednsSubnet = "" <;>
    simp [fullQuery, Values.lookup, hs, hne2, hne3, hne6]

theorem fullQuery_keys (g : Globals) (host recordType padding : String) :
    (fullQuery g host recordType padding).keys
      = if g.ednsSubnet = "" then ["name", "type", "random_padding"]
        else ["name", "type", "edns_client_subnet", "random_padding"] := by
  by_cases hs : g.ednsSubnet = "" <;> simp [fullQuery, Values.keys, hs]

/-! ## Hosts and the padding -/

/-- Claim C1, at a host of 254 bytes: `strings.Repeat` gets the count `-1` and
panics, so `Query` ends in the panic "strings: negative Repeat count" before
any request is sent, whatever the globals, the environment and the record
type; no padding of length 0 is attached. -/
theorem C1_query_panics_on_254_byte_host :
    len host254 = 254 ∧
    ∀ (Any : Type) (g : Globals) (env : Env Any) (t : String),
      (Query g env host254 t).result = Except.error ⟨"strings: negative Repeat count"⟩ ∧
      (Query g env host254 t).events = [] := by
  have hlen : len host254 = 254 := len_replicate_a 254
  refine ⟨hlen, ?_⟩
  intro Any g env t
  have hq := digQuery_of_gt g host254 t (by omega)
  simp [Query, dig, hq]

/-- Claim C2: for a host of fewer than 253 bytes `dig` builds its request
without panic, and the `random_padding` value is `253 - len(host)` copies of
the character `0`: its length is `253 - len(host)` and each of its characters
is `0`. -/
theorem C2_padding_is_zeros (g : Globals) (host recordType : String)
    (h : len host < 253) :
    ∃ (q : Values) (padding : String),
      digQuery g host recordType = Except.ok q ∧
      q.lookup "random_padding" = some [padding] ∧
      padding = ⟨List.replicate (253 - len host) '0'⟩ ∧
      len padding = 253 - len host ∧
      padding.length = 253 - len host ∧
      ∀ c ∈ padding.data, c = '0' := by
  refine ⟨_, ⟨List.replicate (253 - len host) '0'⟩,
    digQuery_of_le g host recordType (Nat.le_of_lt h),
    fullQuery_lookup_padding _ _ _ _, rfl, len_replicate_zero _, ?_, ?_⟩
  · simp [String.length]
  · intro c hc
    exact List.eq_of_mem_replicate hc

theorem C2_padding_is_zeros_witness :
    len "example.com" < 253 ∧
    ∃ (q : Values) (padding : String),
      digQuery Globals.init "example.com" "A" = Except.ok q ∧
      q.lookup "random_padding" = some [padding] ∧
      padding = ⟨List.replicate (253 - len "example.com") '0'⟩ ∧
      len padding = 253 - len "example.com" ∧
      padding.length = 253 - len "example.com" ∧
      ∀ c ∈ padding.data, c = '0' :=
  ⟨by decide, C2_padding_is_zeros Globals.init "example.com" "A" (by decide)⟩

/-- For a host of at most 253 bytes the request of `dig` carries `name`, `type`
and `random_padding`, and `edns_client_subnet` exactly when `ednsSubnet` is not
empty; it carries no other key. -/
theorem digQuery_parameters (g : Globals) (host recordType : String) (h : len host ≤ 253) :
    ∃ (q : Values) (padding : String),
      digQuery g host recordType = Except.ok q ∧
      q.lookup "name" = some [host] ∧
      q.lookup "type" = some [recordType] ∧
      q.lookup "random_padding" = some [padding] ∧
      (g.ednsSubnet ≠ "" → q.lookup "edns_client_subnet" = some [g.ednsSubnet]) ∧
      (g.ednsSubnet = "" → q.lookup "edns_client_subnet" = none) ∧
      q.keys = (if g.ednsSubnet = "" then ["name", "type", "random_padding"]
        else ["name", "type", "edns_client_subnet", "random_padding"]) := by
  refine ⟨_, _, digQuery_of_le g host recordType h, fullQuery_lookup_name _ _ _ _,
    fullQuery_lookup_type _ _ _ _, fullQuery_lookup_padding _ _ _ _, ?_, ?_,
    fullQuery_keys _ _ _ _⟩
  · intro hs
    rw [fullQuery_lookup_subnet, if_neg hs]
  · intro hs
    rw [fullQuery_lookup_subnet, if_pos hs]

/-- Claim C5, at a host of 254 bytes: the first `query.Add` steps are followed
by the panic of `strings.Repeat`, so `dig` builds no query, hands no request
to `client.Do` and puts no parameter on any request, for every record type and
every value of `ednsSubnet`. -/
theorem C5_no_request_on_254_byte_host :
    ∀ (Any : Type) (g : Globals) (env : Env Any) (recordType : String),
      digQuery g host254 recordType = Except.error ⟨"strings: negative Repeat count"⟩ ∧
      (dig g env host254 recordType).events = [] ∧
      (dig g env host254 recordType).result
        = Except.error ⟨"strings: negative Repeat count"⟩ := by
  intro Any g env recordType
  have hlen : len host254 = 254 := len_replicate_a 254
  have hq := digQuery_of_gt g host254 recordType (by omega)
  simp [dig, hq]

/-- Claim C10: for two hosts of at most 253 bytes each, `dig` builds both
requests, and in each the length of the `name` value plus the length of the
`random_padding` value is 253; the two sums are equal. -/
theorem C10_combined_length_is_253 (g : Globals) (h1 h2 t1 t2 : String)
    (hh1 : len h1 ≤ 253) (hh2 : len h2 ≤ 253) :
    ∃ (q1 q2 : Values) (n1 n2 p1 p2 : String),
      digQuery g h1 t1 = Except.ok q1 ∧ digQuery g h2 t2 = Except.ok q2 ∧
      q1.lookup "name" = some [n1] ∧ q1.lookup "random_padding" = some [p1] ∧
      q2.lookup "name" = some [n2] ∧ q2.lookup "random_padding" = some [p2] ∧
      len n1 + len p1 = 253 ∧ len n2 + len p2 = 253 ∧
      len n1 + len p1 = len n2 + len p2 := by
  have e1 : len h1 + len (⟨List.replicate (253 - len h1) '0'⟩ : String) = 253 := by
    rw [len_replicate_zero]; omega
  have e2 : len h2 + len (⟨List.replicate (253 - len h2) '0'⟩ : String) = 253 := by
    rw [len_replicate_zero]; omega
  exact ⟨_, _, h1, h2, _, _, digQuery_of_le g h1 t1 hh1, digQuery_of_le g h2 t2 hh2,
    fullQuery_lookup_name _ _ _ _, fullQuery_lookup_padding _ _ _ _,
    fullQuery_lookup_name _ _ _ _, fullQuery_lookup_padding _ _ _ _,
    e1, e2, e1.trans e2.symm⟩

theorem C10_combined_length_is_253_witness :
    (len "go.dev" ≤ 253 ∧ len "www.example.com" ≤ 253) ∧
    ∃ (q1 q2 : Values) (n1 n2 p1 p2 : String),
      digQuery Globals.init "go.dev" "A" = Except.ok q1 ∧
      digQuery Globals.init "www.example.com" "MX" = Except.ok q2 ∧
      q1.lookup "name" = some [n1] ∧ q1.lookup "random_padding" = some [p1] ∧
      q2.lookup "name" = some [n2] ∧ q2.lookup "random_padding" = some [p2] ∧
      len n1 + len p1 = 253 ∧ len n2 + len p2 = 253 ∧
      len n1 + len p1 = len n2 + len p2 :=
  ⟨⟨by decide, by decide⟩,
    C10_combined_length_is_253 Globals.init "go.dev" "www.example.com" "A" "MX"
      (by decide) (by decide)⟩

/-! ## The package variables over a sequence of calls -/

theorem Query_globals {Any : Type} (g : Globals) (env : Env Any) (host t : String) :
    (Query g env host t).globals = g := by
  have hd : (dig g env host t).globals = g := by
    unfold dig
    cases digQuery g host t with
    | error p => rfl
    | ok q =>
      simp only
      cases env.clientDo ⟨"GET", g.apiURL, q⟩ <;> rfl
  unfold Query
  simp only
  cases hres : (dig g env host t).result with
  | error p => exact hd
  | ok r =>
    obtain ⟨body, err⟩ := r
    cases err with
    | some e => exact hd
    | none =>
      simp only
      cases (env.jsonUnmarshal body Response.zero).2 <;> exact hd

theorem runCalls_eq {Any : Type} (calls : List (Call Any)) (g : Globals) :
    runCalls g calls = { apiURL := g.apiURL, ednsSubnet := lastSubnet g.ednsSubnet calls } := by
  induction calls generalizing g with
  | nil => rfl
  | cons c rest ih =>
    cases c with
    | setEDNSSubnet subnet =>
      simp only [runCalls, List.foldl_cons, step, lastSubnet] at ih ⊢
      rw [ih]
      rfl
    | query env host t =>
      simp only [runCalls, List.foldl_cons, step, lastSubnet, Query_globals] at ih ⊢
      rw [ih]

/-- Claim C6: after any sequence `pre` of `SetEDNSSubnet` and `Query` calls
from the initial package variables, `ednsSubnet` is the argument of the last
`SetEDNSSubnet` call of `pre`, or "0.0.0.0/0" when `pre` has none, and `apiURL`
is unchanged, so a `Query` made next runs with exactly that value;
`SetEDNSSubnet(s)` stores `s` as it is and leaves `apiURL` alone, and `Query`
leaves both package variables alone, also when it panics or fails. -/
theorem C6_query_reads_last_set_subnet :
    ∀ (Any : Type) (pre : List (Call Any)),
      (runCalls Globals.init pre).ednsSubnet = lastSubnet "0.0.0.0/0" pre ∧
      (runCalls Globals.init pre).apiURL = "https://dns.google.com/resolve" ∧
      (∀ (env : Env Any) (host t : String),
        Query (runCalls Globals.init pre) env host t
          = Query { apiURL := "https://dns.google.com/resolve",
                    ednsSubnet := lastSubnet "0.0.0.0/0" pre } env host t) ∧
      (∀ (g : Globals) (s : String),
        (SetEDNSSubnet g s).ednsSubnet = s ∧ (SetEDNSSubnet g s).apiURL = g.apiURL) ∧
      (∀ (g : Globals) (env : Env Any) (host t : String),
        (Query g env host t).globals = g) := by
  intro Any pre
  have h := runCalls_eq pre Globals.init
  refine ⟨?_, ?_, ?_, ?_, ?_⟩
  · rw [h]; rfl
  · rw [h]; rfl
  · intro env host t
    rw [h]; rfl
  · intro g s
    exact ⟨rfl, rfl⟩
  · intro g env host t
    exact Query_globals g env host t

/-! ## `Query` along its three return paths -/

theorem Query_of_transport_failure {Any : Type} (g : Globals) (env : Env Any)
    (host t : String) (q : Values)
    (hq : digQuery g host t = Except.ok q)
    (hdo : env.clientDo { method := "GET", url := g.apiURL, query := q } = none) :
    Query g env host t
      = { globals := g,
          events := [Event.httpDo { method := "GET", url := g.apiURL, query := q }],
          result := Except.ok (Response.zero, some ⟨"Unable to resolve host"⟩) } := by
  simp [Query, dig, hq, hdo]

theorem Query_of_decode_failure {Any : Type} (g : Globals) (env : Env Any)
    (host t : String) (q : Values) (body : List UInt8) (r : Response Any) (e : GoError)
    (hq : digQuery g host t = Except.ok q)
    (hdo : env.clientDo { method := "GET", url := g.apiURL, query := q } = some body)
    (hdec : env.jsonUnmarshal body Response.zero = (r, some e)) :
    (Query g env host t).result = Except.ok (Response.zero, some e) := by
  simp [Query, dig, hq, hdo, hdec]

theorem Query_of_decoded {Any : Type} (g : Globals) (env : Env Any)
    (host t : String) (q : Values) (body : List UInt8) (r : Response Any)
    (hq : digQuery g host t = Except.ok q)
    (hdo : env.clientDo { method := "GET", url := g.apiURL, query := q } = some body)
    (hdec : env.jsonUnmarshal body Response.zero = (r, none)) :
    (Query g env host t).result
      = Except.ok ({ r with Answer := r.Answer.map scaleRecord,
                            Authority := r.Authority.map scaleRecord }, none) := by
  simp [Query, dig, hq, hdo, hdec, scaleTTLs_eq_map]

theorem getElem_map_scaleRecord (rs : List Record) (i : Nat) (x : Record)
    (hx : rs[i]? = some x) : (rs.map scaleRecord)[i]? = some (scaleRecord x) := by
  rw [List.getElem?_map, hx]
  rfl

theorem inInt64_seconds (ttl : Int) (h0 : 0 ≤ ttl) (h1 : ttl < 2 ^ 32) :
    inInt64 (ttl * Second) := by
  unfold inInt64 Second
  constructor <;> omega

/-! ## The TTL rescaling -/

/-- Claim C3, as stated, fails: the resolver sends one answer record with the
TTL 9223372037, a value of an `int64`; `Query` returns no error and the TTL
-9223372036709551616, which is not 9223372037 times 1,000,000,000. -/
theorem C3_counterexample_ttl_product_wraps :
    inInt64 9223372037 ∧
    overflowDecoded.Answer.map Record.TTL = [9223372037] ∧
    (∃ r : Response Unit,
      (Query Globals.init overflowEnv "example.com" "A").result = Except.ok (r, none) ∧
      r.Answer.map Record.TTL = [-9223372036709551616]) ∧
    (-9223372036709551616 : Int) ≠ 9223372037 * 1000000000 := by
  refine ⟨by decide, rfl, ?_, by decide⟩
  have hq := digQuery_of_le Globals.init "example.com" "A" (by decide)
  refine ⟨_, Query_of_decoded Globals.init overflowEnv "example.com" "A" _ _ overflowDecoded
    hq rfl ?_, ?_⟩
  · simp [overflowEnv, stubEnv]
  · decide

/-- Claim C3, amended: when the body decodes without error, the returned
`Answer` and `Authority` have the lengths of the decoded ones, and at every
index the returned element has the name, type and data of the decoded element
and the TTL `wrapInt64 (ttl * 1000000000)`, the product reduced to the `int64`
range once; that is the product itself whenever the product is an `int64`. -/
theorem C3_rescaling_keeps_order {Any : Type} (g : Globals) (env : Env Any)
    (host t : String) (q : Values) (body : List UInt8) (r : Response Any)
    (hq : digQuery g host t = Except.ok q)
    (hdo : env.clientDo { method := "GET", url := g.apiURL, query := q } = some body)
    (hdec : env.jsonUnmarshal body Response.zero = (r, none)) :
    ∃ r1 : Response Any,
      (Query g env host t).result = Except.ok (r1, none) ∧
      r1.Answer.length = r.Answer.length ∧
      r1.Authority.length = r.Authority.length ∧
      (∀ (i : Nat) (x : Record), r.Answer[i]? = some x →
        ∃ y : Record, r1.Answer[i]? = some y ∧
          y.Name = x.Name ∧ y.Type_ = x.Type_ ∧ y.Data = x.Data ∧
          y.TTL = wrapInt64 (x.TTL * 1000000000) ∧
          (inInt64 (x.TTL * 1000000000) → y.TTL = x.TTL * 1000000000)) ∧
      (∀ (i : Nat) (x : Record), r.Authority[i]? = some x →
        ∃ y : Record, r1.Authority[i]? = some y ∧
          y.Name = x.Name ∧ y.Type_ = x.Type_ ∧ y.Data = x.Data ∧
          y.TTL = wrapInt64 (x.TTL * 1000000000) ∧
          (inInt64 (x.TTL * 1000000000) → y.TTL = x.TTL * 1000000000)) := by
  refine ⟨_, Query_of_decoded g env host t q body r hq hdo hdec, ?_, ?_, ?_, ?_⟩
  · simp
  · simp
  · intro i x hx
    refine ⟨scaleRecord x, getElem_map_scaleRecord _ i x hx, rfl, rfl, rfl, rfl, ?_⟩
    intro hin
    exact wrapInt64_of_inInt64 _ hin
  · intro i x hx
    refine ⟨scaleRecord x, getElem_map_scaleRecord _ i x hx, rfl, rfl, rfl, rfl, ?_⟩
    intro hin
    exact wrapInt64_of_inInt64 _ hin

theorem digQuery_example :
    digQuery Globals.init "example.com" "A" = Except.ok exampleQuery := by
  rw [digQuery_of_le _ _ _ (by decide)]
  have h : len "example.com" = 11 := by decide
  simp [fullQuery, exampleQuery, h, Globals.init]

theorem C3_rescaling_keeps_order_witness :
    (digQuery Globals.init "example.com" "A" = Except.ok exampleQuery ∧
      twoAnswersEnv.clientDo { method := "GET", url := Globals.init.apiURL, query := exampleQuery }
        = some twoAnswersBody ∧
      twoAnswersEnv.jsonUnmarshal twoAnswersBody Response.zero
        = (twoAnswersDecoded, none)) ∧
    ∃ r1 : Response Unit,
      (Query Globals.init twoAnswersEnv "example.com" "A").result = Except.ok (r1, none) ∧
      r1.Answer.length = twoAnswersDecoded.Answer.length ∧
      r1.Authority.length = twoAnswersDecoded.Authority.length ∧
      (∀ (i : Nat) (x : Record), twoAnswersDecoded.Answer[i]? = some x →
        ∃ y : Record, r1.Answer[i]? = some y ∧
          y.Name = x.Name ∧ y.Type_ = x.Type_ ∧ y.Data = x.Data ∧
          y.TTL = wrapInt64 (x.TTL * 1000000000) ∧
          (inInt64 (x.TTL * 1000000000) → y.TTL = x.TTL * 1000000000)) ∧
      (∀ (i : Nat) (x : Record), twoAnswersDecoded.Authority[i]? = some x →
        ∃ y : Record, r1.Authority[i]? = some y ∧
          y.Name = x.Name ∧ y.Type_ = x.Type_ ∧ y.Data = x.Data ∧
          y.TTL = wrapInt64 (x.TTL * 1000000000) ∧
          (inInt64 (x.TTL * 1000000000) → y.TTL = x.TTL * 1000000000)) :=
  have hdo : twoAnswersEnv.clientDo
      { method := "GET", url := Globals.init.apiURL, query := exampleQuery }
      = some twoAnswersBody := rfl
  have hdec : twoAnswersEnv.jsonUnmarshal twoAnswersBody
      Response.zero = (twoAnswersDecoded, none) := by
    simp [twoAnswersEnv, stubEnv]
  ⟨⟨digQuery_example, hdo, hdec⟩,
    C3_rescaling_keeps_order Globals.init twoAnswersEnv "example.com" "A" exampleQuery
      twoAnswersBody twoAnswersDecoded digQuery_example hdo hdec⟩

/-- Claim C4: when the body decodes without error, every answer and authority
record whose decoded TTL `ttl` (the number of seconds on the wire) satisfies
`0 ≤ ttl < 2^32` is returned with the TTL `ttl * 1000000000` nanoseconds, that
is `ttl` times `time.Second`, and that product is an `int64`, so the
multiplication does not wrap. For the spec's example response, `Query`
returns no error, `Status` 0, and one answer record with the TTL
`300 * time.Second` and the data "93.184.216.34". -/
theorem C4_ttl_is_exact_seconds :
    (∀ (Any : Type) (g : Globals) (env : Env Any) (host t : String) (q : Values)
        (body : List UInt8) (r : Response Any),
      digQuery g host t = Except.ok q →
      env.clientDo { method := "GET", url := g.apiURL, query := q } = some body →
      env.jsonUnmarshal body Response.zero = (r, none) →
      ∃ r1 : Response Any,
        (Query g env host t).result = Except.ok (r1, none) ∧
        (∀ (i : Nat) (x : Record), r.Answer[i]? = some x → 0 ≤ x.TTL → x.TTL < 2 ^ 32 →
          ∃ y : Record, r1.Answer[i]? = some y ∧
            y.TTL = x.TTL * 1000000000 ∧ y.TTL = x.TTL * Second ∧
            inInt64 (x.TTL * 1000000000)) ∧
        (∀ (i : Nat) (x : Record), r.Authority[i]? = some x → 0 ≤ x.TTL → x.TTL < 2 ^ 32 →
          ∃ y : Record, r1.Authority[i]? = some y ∧
            y.TTL = x.TTL * 1000000000 ∧ y.TTL = x.TTL * Second ∧
            inInt64 (x.TTL * 1000000000))) ∧
    (∃ r1 : Response Unit,
      (Query Globals.init exampleEnv "example.com" "A").result = Except.ok (r1, none) ∧
      r1.Status = 0 ∧
      r1.Answer = [{ Name := "example.com.", Type_ := 1, TTL := 300 * Second,
                     Data := "93.184.216.34" }]) := by
  constructor
  · intro Any g env host t q body r hq hdo hdec
    refine ⟨_, Query_of_decoded g env host t q body r hq hdo hdec, ?_, ?_⟩
    · intro i x hx h0 h1
      have hin := inInt64_seconds x.TTL h0 h1
      have hw : (scaleRecord x).TTL = x.TTL * Second := wrapInt64_of_inInt64 _ hin
      exact ⟨scaleRecord x, getElem_map_scaleRecord _ i x hx, hw, hw, hin⟩
    · intro i x hx h0 h1
      have hin := inInt64_seconds x.TTL h0 h1
      have hw : (scaleRecord x).TTL = x.TTL * Second := wrapInt64_of_inInt64 _ hin
      exact ⟨scaleRecord x, getElem_map_scaleRecord _ i x hx, hw, hw, hin⟩
  · have hdec : exampleEnv.jsonUnmarshal exampleBody Response.zero = (exampleDecoded, none) := by
      simp [exampleEnv, stubEnv]
    refine ⟨_, Query_of_decoded Globals.init exampleEnv "example.com" "A" exampleQuery
      exampleBody exampleDecoded digQuery_example rfl hdec, rfl, ?_⟩
    decide

theorem C4_ttl_is_exact_seconds_witness :
    (digQuery Globals.init "example.com" "A" = Except.ok exampleQuery ∧
      exampleEnv.clientDo { method := "GET", url := Globals.init.apiURL, query := exampleQuery }
        = some exampleBody ∧
      exampleEnv.jsonUnmarshal exampleBody Response.zero = (exampleDecoded, none)) ∧
    ∃ r1 : Response Unit,
      (Query Globals.init exampleEnv "example.com" "A").result = Except.ok (r1, none) ∧
      (∀ (i : Nat) (x : Record), exampleDecoded.Answer[i]? = some x →
        0 ≤ x.TTL → x.TTL < 2 ^ 32 →
        ∃ y : Record, r1.Answer[i]? = some y ∧
          y.TTL = x.TTL * 1000000000 ∧ y.TTL = x.TTL * Second ∧
          inInt64 (x.TTL * 1000000000)) ∧
      (∀ (i : Nat) (x : Record), exampleDecoded.Authority[i]? = some x →
        0 ≤ x.TTL → x.TTL < 2 ^ 32 →
        ∃ y : Record, r1.Authority[i]? = some y ∧
          y.TTL = x.TTL * 1000000000 ∧ y.TTL = x.TTL * Second ∧
          inInt64 (x.TTL * 1000000000)) :=
  have hdo : exampleEnv.clientDo
      { method := "GET", url := Globals.init.apiURL, query := exampleQuery }
      = some exampleBody := rfl
  have hdec : exampleEnv.jsonUnmarshal exampleBody Response.zero = (exampleDecoded, none) := by
    simp [exampleEnv, stubEnv]
  ⟨⟨digQuery_example, hdo, hdec⟩,
    C4_ttl_is_exact_seconds.1 Unit Globals.init exampleEnv "example.com" "A" exampleQuery
      exampleBody exampleDecoded digQuery_example hdo hdec⟩

/-! ## The error paths and the fields passed through -/

/-- On a body that the transport delivered, `Query` calls the decoder on it and
then runs both TTL loops over the decoded response, whatever the decoder
returned. -/
theorem Query_events_of_body {Any : Type} (g : Globals) (env : Env Any)
    (host t : String) (q : Values) (body : List UInt8)
    (hq : digQuery g host t = Except.ok q)
    (hdo : env.clientDo { method := "GET", url := g.apiURL, query := q } = some body) :
    (Query g env host t).events
      = [Event.httpDo { method := "GET", url := g.apiURL, query := q }, Event.readAll,
          Event.jsonUnmarshal body]
        ++ (List.range (env.jsonUnmarshal body Response.zero).1.Answer.length).map
            Event.scaleAnswer
        ++ (List.range (env.jsonUnmarshal body Response.zero).1.Authority.length).map
            Event.scaleAuthority := by
  unfold Query
  simp only [dig, hq, hdo]
  cases (env.jsonUnmarshal body Response.zero).2 <;> simp

/-- Claim C7: when the transport delivers a body on which the decoder returns
an error `e`, whatever the decoder has written into the response before
failing, `Query` returns the error `e` and the zero value `Response{}`. -/
theorem C7_decode_failure_returns_zero {Any : Type} (g : Globals) (env : Env Any)
    (host t : String) (q : Values) (body : List UInt8) (r : Response Any) (e : GoError)
    (hq : digQuery g host t = Except.ok q)
    (hdo : env.clientDo { method := "GET", url := g.apiURL, query := q } = some body)
    (hdec : env.jsonUnmarshal body Response.zero = (r, some e)) :
    (Query g env host t).result = Except.ok (Response.zero, some e) ∧
    ∃ (r1 : Response Any) (err : GoError),
      (Query g env host t).result = Except.ok (r1, some err) ∧
      r1 = Response.zero ∧ r1.Answer = [] ∧ r1.Authority = [] ∧ r1.Status = 0 :=
  have h := Query_of_decode_failure g env host t q body r e hq hdo hdec
  ⟨h, Response.zero, e, h, rfl, rfl, rfl, rfl⟩

theorem C7_decode_failure_returns_zero_witness :
    ((digQuery Globals.init "example.com" "A" = Except.ok exampleQuery ∧
        truncatedEnv.clientDo
          { method := "GET", url := Globals.init.apiURL, query := exampleQuery }
          = some truncatedBody ∧
        truncatedEnv.jsonUnmarshal truncatedBody Response.zero
          = (Response.zero, some ⟨"unexpected end of JSON input"⟩)) ∧
      (Query Globals.init truncatedEnv "example.com" "A").result
        = Except.ok (Response.zero, some ⟨"unexpected end of JSON input"⟩) ∧
      ∃ (r1 : Response Unit) (err : GoError),
        (Query Globals.init truncatedEnv "example.com" "A").result = Except.ok (r1, some err) ∧
        r1 = Response.zero ∧ r1.Answer = [] ∧ r1.Authority = [] ∧ r1.Status = 0) ∧
    ((mistypedEnv.clientDo
          { method := "GET", url := Globals.init.apiURL, query := exampleQuery }
          = some mistypedBody ∧
        mistypedEnv.jsonUnmarshal mistypedBody Response.zero
          = (partialDecoded,
              some ⟨"json: cannot unmarshal string into Go struct field Response.TC of type bool"⟩)) ∧
      (Query Globals.init mistypedEnv "example.com" "A").result
        = Except.ok (Response.zero,
            some ⟨"json: cannot unmarshal string into Go struct field Response.TC of type bool"⟩) ∧
      ∃ (r1 : Response Unit) (err : GoError),
        (Query Globals.init mistypedEnv "example.com" "A").result = Except.ok (r1, some err) ∧
        r1 = Response.zero ∧ r1.Answer = [] ∧ r1.Authority = [] ∧ r1.Status = 0) :=
  have hdo : truncatedEnv.clientDo
      { method := "GET", url := Globals.init.apiURL, query := exampleQuery }
      = some truncatedBody := rfl
  have hdec : truncatedEnv.jsonUnmarshal truncatedBody Response.zero
      = (Response.zero, some ⟨"unexpected end of JSON input"⟩) := by
    simp [truncatedEnv, stubEnv]
  have hdo2 : mistypedEnv.clientDo
      { method := "GET", url := Globals.init.apiURL, query := exampleQuery }
      = some mistypedBody := rfl
  have hdec2 : mistypedEnv.jsonUnmarshal mistypedBody Response.zero
      = (partialDecoded,
          some ⟨"json: cannot unmarshal string into Go struct field Response.TC of type bool"⟩) := by
    simp [mistypedEnv, stubEnv]
  ⟨⟨⟨digQuery_example, hdo, hdec⟩,
      C7_decode_failure_returns_zero Globals.init truncatedEnv "example.com" "A" exampleQuery
        truncatedBody Response.zero ⟨"unexpected end of JSON input"⟩ digQuery_example hdo hdec⟩,
    ⟨⟨hdo2, hdec2⟩,
      C7_decode_failure_returns_zero Globals.init mistypedEnv "example.com" "A" exampleQuery
        mistypedBody partialDecoded _ digQuery_example hdo2 hdec2⟩⟩

/-- Claim C8: when `dig` has built its request and `client.Do` fails on it,
`Query` returns the error "Unable to resolve host" and the zero value
`Response{}`, and the only step it performed is that `client.Do`: no body is
read, `json.Unmarshal` is not called and no TTL is rescaled. -/
theorem C8_transport_failure_returns_zero {Any : Type} (g : Globals) (env : Env Any)
    (host t : String) (q : Values)
    (hq : digQuery g host t = Except.ok q)
    (hdo : env.clientDo { method := "GET", url := g.apiURL, query := q } = none) :
    (Query g env host t).result
      = Except.ok (Response.zero, some ⟨"Unable to resolve host"⟩) ∧
    (Query g env host t).events
      = [Event.httpDo { method := "GET", url := g.apiURL, query := q }] ∧
    ∀ ev ∈ (Query g env host t).events,
      ev ≠ Event.readAll ∧ (∀ data, ev ≠ Event.jsonUnmarshal data) ∧
      (∀ i, ev ≠ Event.scaleAnswer i) ∧ (∀ i, ev ≠ Event.scaleAuthority i) := by
  have h := Query_of_transport_failure g env host t q hq hdo
  refine ⟨by rw [h], by rw [h], ?_⟩
  intro ev hev
  rw [h] at hev
  simp only [List.mem_singleton] at hev
  subst hev
  refine ⟨?_, ?_, ?_, ?_⟩
  · intro hc; cases hc
  · intro data hc; cases hc
  · intro i hc; cases hc
  · intro i hc; cases hc

theorem C8_transport_failure_returns_zero_witness :
    (digQuery Globals.init "example.com" "A" = Except.ok exampleQuery ∧
      refusedEnv.clientDo { method := "GET", url := Globals.init.apiURL, query := exampleQuery }
        = none) ∧
    (Query Globals.init refusedEnv "example.com" "A").result
      = Except.ok (Response.zero, some ⟨"Unable to resolve host"⟩) ∧
    (Query Globals.init refusedEnv "example.com" "A").events
      = [Event.httpDo { method := "GET", url := Globals.init.apiURL, query := exampleQuery }] ∧
    ∀ ev ∈ (Query Globals.init refusedEnv "example.com" "A").events,
      ev ≠ Event.readAll ∧ (∀ data, ev ≠ Event.jsonUnmarshal data) ∧
      (∀ i, ev ≠ Event.scaleAnswer i) ∧ (∀ i, ev ≠ Event.scaleAuthority i) :=
  ⟨⟨digQuery_example, rfl⟩,
    C8_transport_failure_returns_zero Globals.init refusedEnv "example.com" "A" exampleQuery
      digQuery_example rfl⟩

/-- Claim C9: when the body decodes without error, whatever the decoded
`Status`, `Query` returns no error and a response whose `Status`, `TC`, `RD`,
`RA`, `AD`, `CD`, `Question`, `Additional`, `EdnsClientSubnet` and `Comment`
are the decoded ones; putting the decoded `Answer` and `Authority` back gives
the decoded response, and within `Answer` and `Authority` the names, types and
data are the decoded ones in the decoded order, so only the TTLs differ. -/
theorem C9_decoded_fields_pass_through {Any : Type} (g : Globals) (env : Env Any)
    (host t : String) (q : Values) (body : List UInt8) (r : Response Any)
    (hq : digQuery g host t = Except.ok q)
    (hdo : env.clientDo { method := "GET", url := g.apiURL, query := q } = some body)
    (hdec : env.jsonUnmarshal body Response.zero = (r, none)) :
    ∃ r1 : Response Any,
      (Query g env host t).result = Except.ok (r1, none) ∧
      r1.Status = r.Status ∧
      r1.TC = r.TC ∧ r1.RD = r.RD ∧ r1.RA = r.RA ∧ r1.AD = r.AD ∧ r1.CD = r.CD ∧
      r1.Question = r.Question ∧
      r1.Additional = r.Additional ∧
      r1.EdnsClientSubnet = r.EdnsClientSubnet ∧
      r1.Comment = r.Comment ∧
      { r1 with Answer := r.Answer, Authority := r.Authority } = r ∧
      r1.Answer.map (fun x => (x.Name, x.Type_, x.Data))
        = r.Answer.map (fun x => (x.Name, x.Type_, x.Data)) ∧
      r1.Authority.map (fun x => (x.Name, x.Type_, x.Data))
        = r.Authority.map (fun x => (x.Name, x.Type_, x.Data)) := by
  refine ⟨_, Query_of_decoded g env host t q body r hq hdo hdec,
    rfl, rfl, rfl, rfl, rfl, rfl, rfl, rfl, rfl, rfl, rfl, ?_, ?_⟩
  · simp [List.map_map, Function.comp_def, scaleRecord]
  · simp [List.map_map, Function.comp_def, scaleRecord]

theorem C9_decoded_fields_pass_through_witness :
    (digQuery Globals.init "nosuch.example" "A"
        = Except.ok (fullQuery Globals.init "nosuch.example" "A" ⟨List.replicate 239 '0'⟩) ∧
      nxdomainEnv.clientDo
        { method := "GET", url := Globals.init.apiURL,
          query := fullQuery Globals.init "nosuch.example" "A" ⟨List.replicate 239 '0'⟩ }
        = some nxdomainBody ∧
      nxdomainEnv.jsonUnmarshal nxdomainBody Response.zero = (nxdomainDecoded, none)) ∧
    ∃ r1 : Response Unit,
      (Query Globals.init nxdomainEnv "nosuch.example" "A").result = Except.ok (r1, none) ∧
      r1.Status = nxdomainDecoded.Status ∧
      r1.TC = nxdomainDecoded.TC ∧ r1.RD = nxdomainDecoded.RD ∧ r1.RA = nxdomainDecoded.RA ∧
      r1.AD = nxdomainDecoded.AD ∧ r1.CD = nxdomainDecoded.CD ∧
      r1.Question = nxdomainDecoded.Question ∧
      r1.Additional = nxdomainDecoded.Additional ∧
      r1.EdnsClientSubnet = nxdomainDecoded.EdnsClientSubnet ∧
      r1.Comment = nxdomainDecoded.Comment ∧
      { r1 with Answer := nxdomainDecoded.Answer, Authority := nxdomainDecoded.Authority }
        = nxdomainDecoded ∧
      r1.Answer.map (fun x => (x.Name, x.Type_, x.Data))
        = nxdomainDecoded.Answer.map (fun x => (x.Name, x.Type_, x.Data)) ∧
      r1.Authority.map (fun x => (x.Name, x.Type_, x.Data))
        = nxdomainDecoded.Authority.map (fun x => (x.Name, x.Type_, x.Data)) :=
  have hq : digQuery Globals.init "nosuch.example" "A"
      = Except.ok (fullQuery Globals.init "nosuch.example" "A" ⟨List.replicate 239 '0'⟩) :=
    digQuery_of_le Globals.init "nosuch.example" "A" (by decide)
  have hdo : nxdomainEnv.clientDo
      { method := "GET", url := Globals.init.apiURL,
        query := fullQuery Globals.init "nosuch.example" "A" ⟨List.replicate 239 '0'⟩ }
      = some nxdomainBody := rfl
  have hdec : nxdomainEnv.jsonUnmarshal nxdomainBody Response.zero
      = (nxdomainDecoded, none) := by
    simp [nxdomainEnv, stubEnv]
  ⟨⟨hq, hdo, hdec⟩,
    C9_decoded_fields_pass_through Globals.init nxdomainEnv "nosuch.example" "A" _
      nxdomainBody nxdomainDecoded hq hdo hdec⟩

end Httpdig
